import Mathlib

/-!
Verification development for the `custom-qr-creator` repository.

The definitions below are a shallow embedding of the algorithmic core of
`src/components/QRCodeGenerator.tsx` (current revision) and of the earlier
revision kept in the repository (the variant that additionally filters
near-white / near-black pixels, called `V0` below):

* the color-extraction pipeline `extractColorsFromImage` (modelled from the
  point where the 50x50 RGBA sample has been read out of the canvas: the
  decode/draw steps are external collaborators, so the embedded function
  takes the list of RGBA samples directly),
* the style resolver `getStyleConfig`,
* the renderer-configuration builders used by the initialization effect, the
  update effect and the export path,
* the settings record and `updateSetting`,
* the export dispatcher `downloadQR`.

JavaScript numbers are modelled by exact rationals (`ℚ`).  All arithmetic the
source performs on pixel data (division by 32, halving averages, the 0.8/1.2
multipliers, saturation ratios) is exactly representable or only compared away
from representability boundaries, so the rational model agrees with IEEE-754
evaluation on every input considered here.  `Math.round x` is `⌊x + 1/2⌋`.
Gradient rotation is converted to real radians, hence uses `ℝ`.
String bucket keys `"r,g,b"` are modelled by the integer triple `(r, g, b)`;
the JS key string is in bijection with that triple.
-/

namespace QRC

/-- One RGBA sample of the downsampled image, channels in 0..255. -/
structure Pixel where
  r : ℕ
  g : ℕ
  b : ℕ
  a : ℕ
deriving DecidableEq

/-- The accumulator stored in the `colorMap`: a running-average color and a
hit count (source: the object `{ r, g, b, count }`). -/
structure ColorBucket where
  r : ℚ
  g : ℚ
  b : ℚ
  count : ℕ
deriving DecidableEq

/-- The extracted palette (source: interface `ExtractedColors`). -/
structure ExtractedColors where
  primary : String
  secondary : String
  accent : String
deriving DecidableEq

/-- JavaScript `Math.round` on a nonnegative rational: floor of `q + 1/2`.
Written with `Rat.floor` (definitionally equal to `⌊·⌋` on `ℚ`, see
`jsRound_eq_floor`) so that concrete instances evaluate. -/
def jsRound (q : ℚ) : ℤ := (q + 1 / 2).floor

/-- Source: `Math.round(r / 32) * 32` — one channel of the quantization key. -/
def quantizeChannel (c : ℕ) : ℤ := jsRound ((c : ℚ) / 32) * 32

/-- Lowercase hex digit character for `n < 16`, as produced by JS
`Number.prototype.toString(16)`. -/
def hexDigitChar (n : ℕ) : Char :=
  if n < 10 then Char.ofNat (48 + n) else Char.ofNat (87 + n)

/-- Fuel-driven base-16 digit expansion (most significant first).  With fuel
`n + 1` this computes exactly the hex digits of `n`. -/
def hexCharsAux : ℕ → ℕ → List Char → List Char
  | 0, _, acc => acc
  | fuel + 1, n, acc =>
    if n < 16 then hexDigitChar n :: acc
    else hexCharsAux fuel (n / 16) (hexDigitChar (n % 16) :: acc)

/-- Hex digits of `n`, as produced by JS `n.toString(16)` for a nonnegative
integer. -/
def hexChars (n : ℕ) : List Char := hexCharsAux (n + 1) n []

/-- Source: `Math.round(x).toString(16).padStart(2, '0')` for one channel.
Channel values are nonnegative throughout extraction, so `Int.toNat` is the
identity on the rounded value. -/
def toHexChannel (q : ℚ) : List Char :=
  let L := hexChars (jsRound q).toNat
  List.replicate (2 - L.length) '0' ++ L

/-- Source: `'#' + [r, g, b].map(x => Math.round(x).toString(16).padStart(2,
'0')).join('')`. -/
def toHex (r g b : ℚ) : String :=
  ⟨'#' :: (toHexChannel r ++ toHexChannel g ++ toHexChannel b)⟩

/-- The fixed neutral fallback palette used on decode failure or when no pixel
survives filtering. -/
def fallbackPalette : ExtractedColors :=
  ⟨"#0D9488", "#14B8A6", "#2DD4BF"⟩

/-- The integer-triple form of the string key `"qr,qg,qb"`. -/
abbrev ColorKey := ℤ × ℤ × ℤ

/-- Quantization key of one pixel. -/
def pixelKey (p : Pixel) : ColorKey :=
  (quantizeChannel p.r, quantizeChannel p.g, quantizeChannel p.b)

/-- A fresh bucket for a first sample (source: `{ r, g, b, count: 1 }`). -/
def newBucket (p : Pixel) : ColorBucket := ⟨p.r, p.g, p.b, 1⟩

/-- Folding a new sample into an existing bucket (source:
`existing.count++; existing.r = (existing.r + r) / 2;` etc.). -/
def foldBucket (c : ColorBucket) (p : Pixel) : ColorBucket :=
  ⟨(c.r + p.r) / 2, (c.g + p.g) / 2, (c.b + p.b) / 2, c.count + 1⟩

/-- Association-list update with JS `Map` semantics: an existing key keeps its
insertion position and has the sample folded in; a new key is appended. -/
def updateMap : List (ColorKey × ColorBucket) → ColorKey → Pixel →
    List (ColorKey × ColorBucket)
  | [], k, p => [(k, newBucket p)]
  | (k', c) :: rest, k, p =>
    if k' = k then (k', foldBucket c p) :: rest
    else (k', c) :: updateMap rest k p

/-- One iteration of the pixel loop of `extractColorsFromImage` (current
revision: only the alpha filter `if (a < 128) continue;`). -/
def colorMapStep (m : List (ColorKey × ColorBucket)) (p : Pixel) :
    List (ColorKey × ColorBucket) :=
  if p.a < 128 then m else updateMap m (pixelKey p) p

/-- One iteration of the pixel loop of the earlier revision, which also
discards near-white (`(r+g+b)/3 > 240`, i.e. `r+g+b > 720`) and near-black
(`(r+g+b)/3 < 15`, i.e. `r+g+b < 45`) pixels. -/
def colorMapStepV0 (m : List (ColorKey × ColorBucket)) (p : Pixel) :
    List (ColorKey × ColorBucket) :=
  if p.a < 128 then m
  else if 720 < p.r + p.g + p.b ∨ p.r + p.g + p.b < 45 then m
  else updateMap m (pixelKey p) p

/-- The whole `colorMap` accumulation loop (current revision). -/
def buildColorMap (pixels : List Pixel) : List (ColorKey × ColorBucket) :=
  pixels.foldl colorMapStep []

/-- The whole `colorMap` accumulation loop (earlier revision). -/
def buildColorMapV0 (pixels : List Pixel) : List (ColorKey × ColorBucket) :=
  pixels.foldl colorMapStepV0 []

/-- Source: `getSaturation`, `(max - min) / max` with `0` when `max` is `0`. -/
def getSaturation (r g b : ℚ) : ℚ :=
  let mx := max r (max g b)
  let mn := min r (min g b)
  if mx = 0 then 0 else (mx - mn) / mx

/-- Source: `Array.from(colorMap.values()).sort((a, b) => b.count -
a.count).slice(0, 10)`.  JS `sort` is stable; `insertionSort` with the
reflexive descending-count relation is the corresponding stable sort. -/
def sortedColors (m : List (ColorKey × ColorBucket)) : List ColorBucket :=
  (List.insertionSort (fun a b : ColorBucket => b.count ≤ a.count)
    (m.map Prod.snd)).take 10

/-- Source: `sortedColors.filter(c => getSaturation(c.r, c.g, c.b) >
0.2).slice(0, 3)`. -/
def saturatedColors (sorted : List ColorBucket) : List ColorBucket :=
  (sorted.filter (fun c => decide ((1 : ℚ) / 5 < getSaturation c.r c.g c.b))).take 3

/-- Slot assignment and hex rendering of `extractColorsFromImage` (current
revision), from the already-accumulated sample list.  Mirrors the three
branches: at least one saturated bucket (with the 0.8-darkened and
1.2-brightened synthetic fallbacks), any bucket at all (monochrome path), or
the fixed fallback palette. -/
def extractColorsFromImage (pixels : List Pixel) : ExtractedColors :=
  let sorted := sortedColors (buildColorMap pixels)
  let sat := saturatedColors sorted
  match sat.get? 0 with
  | some c0 =>
    { primary := toHex c0.r c0.g c0.b
      secondary :=
        match sat.get? 1 with
        | some c1 => toHex c1.r c1.g c1.b
        | none => toHex (c0.r * (4 / 5)) (c0.g * (4 / 5)) (c0.b * (4 / 5))
      accent :=
        match sat.get? 2 with
        | some c2 => toHex c2.r c2.g c2.b
        | none => toHex (c0.r * (6 / 5)) (c0.g * (6 / 5)) (c0.b * (6 / 5)) }
  | none =>
    match sorted.get? 0 with
    | some c =>
      let c2 := (sorted.get? 1).getD c
      let c3 := ((sorted.get? 2).or (sorted.get? 1)).getD c
      { primary := toHex c.r c.g c.b
        secondary := toHex c2.r c2.g c2.b
        accent := toHex c3.r c3.g c3.b }
    | none => fallbackPalette

/-- Slot assignment of the earlier revision: same saturated branch, but the
monochrome branch fills missing secondary/accent with fixed literals instead
of repeating buckets. -/
def extractColorsFromImageV0 (pixels : List Pixel) : ExtractedColors :=
  let sorted := sortedColors (buildColorMapV0 pixels)
  let sat := saturatedColors sorted
  match sat.get? 0 with
  | some c0 =>
    { primary := toHex c0.r c0.g c0.b
      secondary :=
        match sat.get? 1 with
        | some c1 => toHex c1.r c1.g c1.b
        | none => toHex (c0.r * (4 / 5)) (c0.g * (4 / 5)) (c0.b * (4 / 5))
      accent :=
        match sat.get? 2 with
        | some c2 => toHex c2.r c2.g c2.b
        | none => toHex (c0.r * (6 / 5)) (c0.g * (6 / 5)) (c0.b * (6 / 5)) }
  | none =>
    match sorted.get? 0 with
    | some c =>
      { primary := toHex c.r c.g c.b
        secondary := ((sorted.get? 1).map fun c1 => toHex c1.r c1.g c1.b).getD "#0D9488"
        accent := ((sorted.get? 2).map fun c2 => toHex c2.r c2.g c2.b).getD "#14B8A6" }
    | none => fallbackPalette

/-- A well-formed palette entry in the sense of the specification: a marker
`'#'` followed by exactly six hex digits (7 characters in total). -/
def isHexDigitChar (c : Char) : Bool :=
  ('0' ≤ c && c ≤ '9') || ('a' ≤ c && c ≤ 'f') || ('A' ≤ c && c ≤ 'F')

/-- Well-formedness of a 7-character color string, following the spec's words. -/
def isWellFormedColor (s : String) : Bool :=
  match s.data with
  | '#' :: cs => cs.length == 6 && cs.all isHexDigitChar
  | _ => false

/-- The resolver output (source: the anonymous record `{ dotsType,
cornersSquareType, cornersDotType }`).  The fields carry the renderer's shape
tokens for data modules, locator outline and locator core respectively. -/
structure StyleConfig where
  dotsType : String
  cornersSquareType : String
  cornersDotType : String
deriving DecidableEq

/-- Source: `getStyleConfig` — a `switch` on the style token whose `default`
case shares the `'squares'` branch.  The input is modelled as a plain string
(the TypeScript union is erased at runtime), so the default branch is
reachable by unrecognized tokens exactly as in the compiled JS. -/
def getStyleConfig (style : String) : StyleConfig :=
  if style = "dots" then ⟨"dots", "dot", "dot"⟩
  else if style = "rounded" then ⟨"rounded", "extra-rounded", "dot"⟩
  else ⟨"square", "square", "square"⟩

/-- Source: interface `QRSettings` (current revision).  Enumerated fields are
strings at runtime; `gradientRotation`, `logoSize` are numbers. -/
structure QRSettings where
  content : String
  fgColor : String
  fgColor2 : String
  bgColor : String
  style : String
  gradientType : String
  gradientRotation : ℚ
  logo : Option String
  logoSize : ℚ
  frameStyle : String
  frameColor : String
  ctaOption : String
  customCTA : String
  ctaColor : String
deriving DecidableEq

/-- A gradient descriptor (source: the object passed as `gradient`): mode
string, rotation in radians, and the color-stop list as offset/color pairs. -/
structure Gradient where
  gtype : String
  rotation : ℝ
  colorStops : List (ℚ × String)

/-- The per-region options the renderer receives: an optional solid color, an
optional gradient, and the shape token. -/
structure RegionOptions where
  color : Option String
  gradient : Option Gradient
  shapeType : String

/-- The configuration object handed to `new QRCodeStyling(...)` (in the
initialization effect and the PNG export path). -/
structure RenderConfig where
  width : ℚ
  height : ℚ
  data : String
  dotsOptions : RegionOptions
  cornersSquareOptions : RegionOptions
  cornersDotOptions : RegionOptions
  backgroundColor : String
  imageMargin : ℚ
  imageSize : ℚ
  image : Option String
  errorCorrectionLevel : String

/-- The partial configuration handed to `qrCodeRef.current.update(...)` by the
settings-change effect. -/
structure UpdateConfig where
  data : String
  dotsOptions : RegionOptions
  cornersSquareOptions : RegionOptions
  cornersDotOptions : RegionOptions
  backgroundColor : String
  image : Option String

/-- The placeholder URL substituted for falsy content by
`settings.content || 'https://custom-qr-code.lovable.app'`. -/
def defaultURL : String := "https://custom-qr-code.lovable.app"

/-- JS `settings.content || defaultURL`: the only falsy string is `""`. -/
def resolveData (content : String) : String :=
  if content = "" then defaultURL else content

/-- JS `settings.logo || undefined`: `null` and `""` both become `undefined`. -/
def logoOrUndefined (logo : Option String) : Option String :=
  match logo with
  | some l => if l = "" then none else some l
  | none => none

/-- Source: `settings.gradientRotation * (Math.PI / 180)`. -/
noncomputable def degToRad (d : ℚ) : ℝ := (d : ℝ) * (Real.pi / 180)

/-- Source: `getColorOptions` — `{ color }` for solid fill, otherwise one
shared gradient descriptor with stops at offsets 0 and 1.  The update effect
and the PNG export path re-derive the identical expression inline (to avoid a
stale closure); all three sites are embedded by this one definition. -/
noncomputable def getColorOptions (s : QRSettings) : Option String × Option Gradient :=
  if s.gradientType = "none" then (some s.fgColor, none)
  else (none, some ⟨s.gradientType, degToRad s.gradientRotation,
    [(0, s.fgColor), (1, s.fgColor2)]⟩)

/-- Region options shared by the three drawable regions: the fill pair plus
the per-region shape token. -/
noncomputable def mkRegion (co : Option String × Option Gradient) (t : String) :
    RegionOptions :=
  ⟨co.1, co.2, t⟩

/-- The configuration built by the initialization effect
(`new QRCodeStyling({ width: 280, height: 280, ... })`). -/
noncomputable def buildInitConfig (s : QRSettings) : RenderConfig :=
  let sc := getStyleConfig s.style
  let co := getColorOptions s
  { width := 280
    height := 280
    data := resolveData s.content
    dotsOptions := mkRegion co sc.dotsType
    cornersSquareOptions := mkRegion co sc.cornersSquareType
    cornersDotOptions := mkRegion co sc.cornersDotType
    backgroundColor := s.bgColor
    imageMargin := 8
    imageSize := 2 / 5
    image := logoOrUndefined s.logo
    errorCorrectionLevel := "H" }

/-- The configuration passed to `qrCodeRef.current.update(...)` by the
settings-change effect. -/
noncomputable def buildUpdateConfig (s : QRSettings) : UpdateConfig :=
  let sc := getStyleConfig s.style
  let co := getColorOptions s
  { data := resolveData s.content
    dotsOptions := mkRegion co sc.dotsType
    cornersSquareOptions := mkRegion co sc.cornersSquareType
    cornersDotOptions := mkRegion co sc.cornersDotType
    backgroundColor := s.bgColor
    image := logoOrUndefined s.logo }

/-- The configuration built by `downloadQR` for the direct PNG export
(`new QRCodeStyling({ width: exportSize, height: exportSize, ... })`). -/
noncomputable def buildExportConfig (s : QRSettings) (exportSize : ℚ) : RenderConfig :=
  let sc := getStyleConfig s.style
  let co := getColorOptions s
  { width := exportSize
    height := exportSize
    data := resolveData s.content
    dotsOptions := mkRegion co sc.dotsType
    cornersSquareOptions := mkRegion co sc.cornersSquareType
    cornersDotOptions := mkRegion co sc.cornersDotType
    backgroundColor := s.bgColor
    imageMargin := 8
    imageSize := 2 / 5
    image := logoOrUndefined s.logo
    errorCorrectionLevel := "H" }

/-- The observable outcome of one `downloadQR` invocation. -/
inductive ExportOutcome where
  /-- The `html2canvas` subtree-capture path: scale factor and saved file name. -/
  | captureSave (scale : ℚ) (filename : String)
  /-- A fresh renderer instance created at export size, then `download` with
  the given extension. -/
  | rendererDownload (config : RenderConfig) (extension : String)
  /-- `download` on the existing preview renderer with the given extension. -/
  | previewDownload (extension : String)
  /-- Neither ref was available: nothing happens. -/
  | nothing

/-- Source: `downloadQR` — frame/caption active and the wrapper ref present
selects the capture path (scale `max(1, exportSize / renderedWidth)`, file
name forced to `.png` by the ternary `format === 'svg' ? 'png' : 'png'`);
otherwise, with the renderer ref present, PNG re-renders at export size and
SVG downloads from the preview instance. -/
noncomputable def downloadQR (s : QRSettings) (exportSize : ℚ) (format : String)
    (frameWrapperPresent : Bool) (renderedWidth : ℚ) (qrPresent : Bool) :
    ExportOutcome :=
  if (s.frameStyle ≠ "none" ∨ s.ctaOption ≠ "none") ∧ frameWrapperPresent then
    ExportOutcome.captureSave (max 1 (exportSize / renderedWidth))
      ("qr-code." ++ (if format = "svg" then "png" else "png"))
  else if qrPresent then
    if format = "png" then
      ExportOutcome.rendererDownload (buildExportConfig s exportSize) "png"
    else
      ExportOutcome.previewDownload "svg"
  else ExportOutcome.nothing

/-- The keys of the settings record (source: `keyof QRSettings`). -/
inductive SettingKey where
  | content | fgColor | fgColor2 | bgColor | style | gradientType
  | gradientRotation | logo | logoSize | frameStyle | frameColor
  | ctaOption | customCTA | ctaColor
deriving DecidableEq

/-- The value type of each settings key (source: `QRSettings[K]`). -/
def SettingValue : SettingKey → Type
  | .content => String
  | .fgColor => String
  | .fgColor2 => String
  | .bgColor => String
  | .style => String
  | .gradientType => String
  | .gradientRotation => ℚ
  | .logo => Option String
  | .logoSize => ℚ
  | .frameStyle => String
  | .frameColor => String
  | .ctaOption => String
  | .customCTA => String
  | .ctaColor => String

/-- Reading one field of the settings record. -/
def getField (s : QRSettings) : (k : SettingKey) → SettingValue k
  | .content => s.content
  | .fgColor => s.fgColor
  | .fgColor2 => s.fgColor2
  | .bgColor => s.bgColor
  | .style => s.style
  | .gradientType => s.gradientType
  | .gradientRotation => s.gradientRotation
  | .logo => s.logo
  | .logoSize => s.logoSize
  | .frameStyle => s.frameStyle
  | .frameColor => s.frameColor
  | .ctaOption => s.ctaOption
  | .customCTA => s.customCTA
  | .ctaColor => s.ctaColor

/-- Source: `updateSetting` — `setSettings(prev => ({ ...prev, [key]: value
}))`: spread the previous record and override one key. -/
def updateSetting (s : QRSettings) (k : SettingKey) (v : SettingValue k) :
    QRSettings :=
  match k, v with
  | .content, v => { s with content := v }
  | .fgColor, v => { s with fgColor := v }
  | .fgColor2, v => { s with fgColor2 := v }
  | .bgColor, v => { s with bgColor := v }
  | .style, v => { s with style := v }
  | .gradientType, v => { s with gradientType := v }
  | .gradientRotation, v => { s with gradientRotation := v }
  | .logo, v => { s with logo := v }
  | .logoSize, v => { s with logoSize := v }
  | .frameStyle, v => { s with frameStyle := v }
  | .frameColor, v => { s with frameColor := v }
  | .ctaOption, v => { s with ctaOption := v }
  | .customCTA, v => { s with customCTA := v }
  | .ctaColor, v => { s with ctaColor := v }

/-! ## Helper lemmas -/

/-- On rationals, the computable `Rat.floor` used in `jsRound` is the
mathematical floor. -/
theorem jsRound_eq_floor (q : ℚ) : jsRound q = ⌊q + 1 / 2⌋ :=
  (Rat.floor_def' _).trans Rat.floor_def.symm

set_option maxRecDepth 4096 in
/-- An 8-bit value prints as at most two lowercase hex digits. -/
theorem hexChars_bounded :
    ∀ n : ℕ, n < 256 →
      (hexChars n).length ≤ 2 ∧ (hexChars n).all isHexDigitChar = true := by
  decide

/-- The default settings record of the component (source: the `useState`
initializer, with the heart asset modelled by its file name). -/
def sampleSettings : QRSettings :=
  { content := "https://custom-qr-code.lovable.app"
    fgColor := "#FF560E"
    fgColor2 := "#736EF8"
    bgColor := "#FFFFFF"
    style := "squares"
    gradientType := "none"
    gradientRotation := 0
    logo := some "lovable-heart.svg"
    logoSize := 50
    frameStyle := "none"
    frameColor := "#FF560E"
    ctaOption := "none"
    customCTA := ""
    ctaColor := "#FFFFFF" }

/-! ## Claim C5 -/

/-- Claim C5: `getStyleConfig` is a total, deterministic function: `squares`
maps to the all-square triple, `dots` to the all-dot triple (renderer tokens
`dots`/`dot`/`dot`), `rounded` to rounded data modules, extra-rounded locator
outline and a plain-dot locator core, and any unrecognized token yields the
same result as `squares`; `resolve(x) = resolve(x)` for all inputs. -/
theorem claim_C5 :
    getStyleConfig "squares" = ⟨"square", "square", "square"⟩ ∧
    getStyleConfig "dots" = ⟨"dots", "dot", "dot"⟩ ∧
    getStyleConfig "rounded" = ⟨"rounded", "extra-rounded", "dot"⟩ ∧
    (∀ s : String, s ≠ "dots" → s ≠ "rounded" →
      getStyleConfig s = getStyleConfig "squares") ∧
    (∀ s : String, getStyleConfig s = getStyleConfig s) := by
  refine ⟨rfl, rfl, rfl, ?_, fun s => rfl⟩
  intro s h1 h2
  simp [getStyleConfig, h1, h2]

/-- Witness for C5 at the concrete unrecognized token `"hexagons"`. -/
theorem claim_C5_witness :
    getStyleConfig "hexagons" = getStyleConfig "squares" :=
  claim_C5.2.2.2.1 "hexagons" (by decide) (by decide)

/-! ## Claim C9 -/

/-- Claim C9: `updateSetting k v` sets field `k` to `v` and leaves every
other field of the settings record unchanged. -/
theorem claim_C9 (s : QRSettings) (k : SettingKey) (v : SettingValue k) :
    getField (updateSetting s k v) k = v ∧
    ∀ k' : SettingKey, k' ≠ k →
      getField (updateSetting s k v) k' = getField s k' := by
  constructor
  · cases k <;> rfl
  · intro k' h
    cases k <;> cases k' <;> first | rfl | exact absurd rfl h

/-- Witness for C9: updating `content` on the default settings stores the new
value and leaves `fgColor` untouched. -/
theorem claim_C9_witness :
    getField (updateSetting sampleSettings .content "x") .content = "x" ∧
    getField (updateSetting sampleSettings .content "x") .fgColor =
      getField sampleSettings .fgColor :=
  ⟨(claim_C9 sampleSettings .content "x").1,
   (claim_C9 sampleSettings .content "x").2 .fgColor (by decide)⟩

/-! ## Claim C7 -/

/-- Claim C7: with no frame and no caption active and format `svg`, the
export path never reaches the subtree-capture branch: the outcome is the
symbol renderer's own `download` with extension `svg`. -/
theorem claim_C7 (s : QRSettings) (exportSize : ℚ) (fwPresent : Bool)
    (renderedWidth : ℚ) (h1 : s.frameStyle = "none") (h2 : s.ctaOption = "none") :
    downloadQR s exportSize "svg" fwPresent renderedWidth true =
      ExportOutcome.previewDownload "svg" := by
  simp [downloadQR, h1, h2]

/-- Witness for C7: SVG export of the default settings (no frame, no caption)
downloads from the preview renderer. -/
theorem claim_C7_witness :
    downloadQR sampleSettings 1024 "svg" true 280 true =
      ExportOutcome.previewDownload "svg" :=
  claim_C7 sampleSettings 1024 true 280 rfl rfl

/-! ## Claim C6 -/

/-- The default settings with a frame style selected. -/
def framedSettings : QRSettings := { sampleSettings with frameStyle := "simple" }

/-- Claim C6: with a frame or caption active (and the wrapper rendered), the
export always goes through subtree capture at scale
`max(1, exportSize / renderedWidth)` and saves a `.png` file regardless of the
requested format; at `exportSize = 1024` over a 280px-wide subtree the scale
is at least 3.65. -/
theorem claim_C6 (s : QRSettings) (exportSize : ℚ) (format : String)
    (renderedWidth : ℚ) (qrPresent : Bool)
    (h : s.frameStyle ≠ "none" ∨ s.ctaOption ≠ "none") :
    downloadQR s exportSize format true renderedWidth qrPresent =
      ExportOutcome.captureSave (max 1 (exportSize / renderedWidth))
        "qr-code.png" ∧
    (exportSize = 1024 → renderedWidth = 280 →
      (73 : ℚ) / 20 ≤ max 1 (exportSize / renderedWidth)) := by
  constructor
  · simp [downloadQR, h]
  · rintro rfl rfl
    refine le_max_of_le_right ?_
    norm_num

/-- Witness for C6: exporting the framed default settings at 1024 px over a
280px-wide subtree, with SVG requested, captures at scale `1024/280 ≥ 3.65`
and saves a PNG. -/
theorem claim_C6_witness :
    downloadQR framedSettings 1024 "svg" true 280 true =
      ExportOutcome.captureSave (max 1 ((1024 : ℚ) / 280)) "qr-code.png" ∧
    (73 : ℚ) / 20 ≤ max 1 ((1024 : ℚ) / 280) :=
  ⟨(claim_C6 framedSettings 1024 "svg" 280 true (Or.inl (by decide))).1,
   (claim_C6 framedSettings 1024 "svg" 280 true (Or.inl (by decide))).2 rfl rfl⟩

/-! ## Claim C4 -/

/-- The default settings with whitespace-only content. -/
def wsSettings : QRSettings := { sampleSettings with content := " " }

/-- Counterexample to C4 as stated: the substitution is JavaScript's `||` on
the raw content string, so the whitespace-only (truthy) content `" "` is
passed through unchanged rather than replaced by the placeholder URL. -/
theorem claim_C4_counterexample :
    " ".data.all Char.isWhitespace = true ∧
    (buildUpdateConfig wsSettings).data = " " ∧
    " " ≠ defaultURL := by
  refine ⟨by decide, rfl, by decide⟩

/-- Claim C4, amended: only the literally empty content string is replaced by
the placeholder URL — in the initialization, update and export
configurations alike — and the placeholder is nonempty, so
`build({content: ""}).data` is never the empty string.  (Whitespace-only
content is not substituted; see the counterexample.) -/
theorem claim_C4 (s : QRSettings) (exportSize : ℚ) (h : s.content = "") :
    (buildInitConfig s).data = defaultURL ∧
    (buildUpdateConfig s).data = defaultURL ∧
    (buildExportConfig s exportSize).data = defaultURL ∧
    defaultURL ≠ "" := by
  refine ⟨?_, ?_, ?_, by decide⟩ <;>
    simp [buildInitConfig, buildUpdateConfig, buildExportConfig, resolveData, h]

/-- Witness for C4 at empty content in the default settings. -/
theorem claim_C4_witness :
    (buildInitConfig { sampleSettings with content := "" }).data = defaultURL ∧
    (buildUpdateConfig { sampleSettings with content := "" }).data = defaultURL ∧
    (buildExportConfig { sampleSettings with content := "" } 1024).data = defaultURL ∧
    defaultURL ≠ "" :=
  claim_C4 { sampleSettings with content := "" } 1024 rfl

/-! ## Claim C8 -/

/-- The default settings switched to a linear gradient at 180 degrees. -/
def linearSettings : QRSettings :=
  { sampleSettings with gradientType := "linear", gradientRotation := 180 }

/-- Claim C8: for a linear gradient the descriptor's rotation is the
configured degree value times `π / 180`; at 180 degrees it is exactly `π`. -/
theorem claim_C8 (s : QRSettings) (h : s.gradientType = "linear") :
    ((buildUpdateConfig s).dotsOptions.gradient.map Gradient.rotation) =
      some ((s.gradientRotation : ℝ) * (Real.pi / 180)) ∧
    (s.gradientRotation = 180 →
      ((buildUpdateConfig s).dotsOptions.gradient.map Gradient.rotation) =
        some Real.pi) := by
  have hne : s.gradientType ≠ "none" := by rw [h]; decide
  constructor
  · simp [buildUpdateConfig, mkRegion, getColorOptions, hne, degToRad]
  · intro h180
    simp only [buildUpdateConfig, mkRegion, getColorOptions, hne, degToRad,
      if_neg hne, Option.map_some', h180]
    norm_num
    ring_nf

/-- Witness for C8: the linear-gradient default settings at 180 degrees give
rotation exactly `π`. -/
theorem claim_C8_witness :
    ((buildUpdateConfig linearSettings).dotsOptions.gradient.map
      Gradient.rotation) = some Real.pi :=
  (claim_C8 linearSettings rfl).2 rfl

/-! ## Claim C10 -/

/-- The fill-specification invariant of one drawable region, following the
claim: with a gradient mode active the region carries a gradient descriptor
whose two stops are `fgColor` at offset 0 and `fgColor2` at offset 1 and no
solid color; with mode `none` it carries the single solid `fgColor` and no
gradient. -/
def fillSpecOk (s : QRSettings) (ro : RegionOptions) : Prop :=
  (s.gradientType ≠ "none" →
    ∃ g, ro.gradient = some g ∧ g.gtype = s.gradientType ∧
      g.colorStops = [(0, s.fgColor), (1, s.fgColor2)] ∧ ro.color = none) ∧
  (s.gradientType = "none" → ro.gradient = none ∧ ro.color = some s.fgColor)

/-- Claim C10: in both the update and the export configurations, all three
drawable regions satisfy the fill-specification invariant (shared two-stop
gradient descriptor when a gradient mode is active, single solid foreground
color otherwise). -/
theorem claim_C10 (s : QRSettings) (exportSize : ℚ) :
    fillSpecOk s (buildUpdateConfig s).dotsOptions ∧
    fillSpecOk s (buildUpdateConfig s).cornersSquareOptions ∧
    fillSpecOk s (buildUpdateConfig s).cornersDotOptions ∧
    fillSpecOk s (buildExportConfig s exportSize).dotsOptions ∧
    fillSpecOk s (buildExportConfig s exportSize).cornersSquareOptions ∧
    fillSpecOk s (buildExportConfig s exportSize).cornersDotOptions := by
  have key : ∀ t : String, fillSpecOk s (mkRegion (getColorOptions s) t) := by
    intro t
    constructor
    · intro h
      exact ⟨⟨s.gradientType, degToRad s.gradientRotation,
          [(0, s.fgColor), (1, s.fgColor2)]⟩,
        by simp [mkRegion, getColorOptions, h], rfl, rfl,
        by simp [mkRegion, getColorOptions, h]⟩
    · intro h
      exact ⟨by simp [mkRegion, getColorOptions, h],
        by simp [mkRegion, getColorOptions, h]⟩
  exact ⟨key _, key _, key _, key _, key _, key _⟩

/-- The default settings switched to a radial gradient. -/
def radialSettings : QRSettings := { sampleSettings with gradientType := "radial" }

/-- Witness for C10: the radial-gradient settings produce a two-stop gradient
descriptor, and the solid default settings produce a plain color with no
gradient. -/
theorem claim_C10_witness :
    (∃ g, (buildUpdateConfig radialSettings).dotsOptions.gradient = some g ∧
      g.gtype = radialSettings.gradientType ∧
      g.colorStops = [(0, radialSettings.fgColor), (1, radialSettings.fgColor2)] ∧
      (buildUpdateConfig radialSettings).dotsOptions.color = none) ∧
    ((buildUpdateConfig sampleSettings).dotsOptions.gradient = none ∧
      (buildUpdateConfig sampleSettings).dotsOptions.color =
        some sampleSettings.fgColor) :=
  ⟨(claim_C10 radialSettings 1024).1.1 (by decide),
   (claim_C10 sampleSettings 1024).1.2 rfl⟩

/-! ## Claim C2 -/

/-- Counterexample to C2 as stated: channel value 16 is quantized to 32, not
to the floor-multiple `(16 / 32) * 32 = 0` the claim describes. -/
theorem claim_C2_counterexample :
    quantizeChannel 16 = 32 ∧ quantizeChannel 16 ≠ ((16 : ℤ) / 32) * 32 := by
  constructor <;> with_unfolding_all decide

/-- The quantized channel is the channel rounded to the nearest multiple of
32, computed by integer arithmetic. -/
theorem quantizeChannel_eq (c : ℕ) :
    quantizeChannel c = ((c + 16) / 32 : ℕ) * 32 := by
  have hcast : (c : ℚ) / 32 + 1 / 2 = ((c + 16 : ℕ) : ℚ) / ((32 : ℕ) : ℚ) := by
    push_cast
    ring
  have hfl : ⌊((c + 16 : ℕ) : ℚ) / ((32 : ℕ) : ℚ)⌋ = ((c + 16 : ℕ) : ℤ) / ((32 : ℕ) : ℤ) := by
    have := Rat.floor_intCast_div_natCast ((c + 16 : ℕ) : ℤ) 32
    simpa using this
  rw [quantizeChannel, jsRound_eq_floor, hcast, hfl]
  omega

/-- Claim C2, amended: each channel of the bucket key is the channel rounded
to the NEAREST multiple of the quantization step 32 (halves round up), not
rounded down: the key channel is a multiple of 32 at minimal distance from
the channel value. -/
theorem claim_C2 (c : ℕ) :
    (32 : ℤ) ∣ quantizeChannel c ∧
    ∀ m : ℤ, 32 ∣ m →
      |(c : ℤ) - quantizeChannel c| ≤ |(c : ℤ) - m| := by
  rw [quantizeChannel_eq]
  constructor
  · exact ⟨((c + 16) / 32 : ℕ), by ring⟩
  · rintro m ⟨k, rfl⟩
    have h1 : 32 * ((c + 16) / 32) ≤ c + 16 := Nat.mul_div_le _ _
    have h2 : c + 16 < 32 * ((c + 16) / 32) + 32 := by omega
    rw [Int.abs_eq_natAbs, Int.abs_eq_natAbs]
    omega

/-- Witness for C2 at channel 16 and the competing multiple 0: the code's
bucket key 32 is at distance 16, no farther than 0 is. -/
theorem claim_C2_witness :
    (32 : ℤ) ∣ quantizeChannel 16 ∧
    |(16 : ℤ) - quantizeChannel 16| ≤ |(16 : ℤ) - 0| :=
  ⟨(claim_C2 16).1, (claim_C2 16).2 0 (by decide)⟩

/-! ## Claim C3 -/

/-- A pixel loop in which every pixel is filtered away leaves the color map
unchanged (current revision: the alpha filter). -/
theorem foldl_colorMapStep_skip (pixels : List Pixel)
    (h : ∀ p ∈ pixels, p.a < 128) :
    ∀ m, pixels.foldl colorMapStep m = m := by
  induction pixels with
  | nil => intro m; rfl
  | cons p rest ih =>
    intro m
    have hp := h p (List.mem_cons_self p rest)
    have hrest : ∀ q ∈ rest, q.a < 128 := fun q hq => h q (List.mem_cons_of_mem p hq)
    simp only [List.foldl_cons, colorMapStep, if_pos hp]
    exact ih hrest m

/-- A pixel loop in which every pixel is transparent or near-white leaves the
color map unchanged (earlier revision: alpha and brightness filters). -/
theorem foldl_colorMapStepV0_skip (pixels : List Pixel)
    (h : ∀ p ∈ pixels, p.a < 128 ∨ 720 < p.r + p.g + p.b) :
    ∀ m, pixels.foldl colorMapStepV0 m = m := by
  induction pixels with
  | nil => intro m; rfl
  | cons p rest ih =>
    intro m
    have hrest : ∀ q ∈ rest, q.a < 128 ∨ 720 < q.r + q.g + q.b :=
      fun q hq => h q (List.mem_cons_of_mem p hq)
    rcases h p (List.mem_cons_self p rest) with hp | hp
    · simp only [List.foldl_cons, colorMapStepV0, if_pos hp]
      exact ih hrest m
    · simp only [List.foldl_cons, colorMapStepV0]
      rcases Nat.lt_or_ge p.a 128 with h128 | h128
      · rw [if_pos h128]
        exact ih hrest m
      · rw [if_neg (Nat.not_lt.mpr h128), if_pos (Or.inl hp)]
        exact ih hrest m

/-- Counterexample to C3 as stated: the current `extractColorsFromImage` does
not filter near-white pixels, so a single opaque near-white pixel (brightness
250 > 240) produces the monochrome palette `#fafafa`, not the fallback
triple. -/
theorem claim_C3_counterexample :
    extractColorsFromImage [⟨250, 250, 250, 255⟩] =
      ⟨"#fafafa", "#fafafa", "#fafafa"⟩ ∧
    720 < 250 + 250 + 250 ∧ ¬ (255 : ℕ) < 128 ∧
    (⟨"#fafafa", "#fafafa", "#fafafa"⟩ : ExtractedColors) ≠ fallbackPalette := by
  refine ⟨by with_unfolding_all decide, by decide, by decide, by decide⟩

/-- Claim C3, amended: the earlier revision (whose loop also filters
near-white pixels) returns exactly the fixed fallback triple on any image all
of whose pixels are transparent (alpha < 128) or near-white (average channel
above 240); the current revision guarantees this only for all-transparent
images, because it keeps near-white opaque pixels (see the counterexample). -/
theorem claim_C3 (pixels : List Pixel) :
    ((∀ p ∈ pixels, p.a < 128 ∨ 720 < p.r + p.g + p.b) →
      extractColorsFromImageV0 pixels = fallbackPalette) ∧
    ((∀ p ∈ pixels, p.a < 128) →
      extractColorsFromImage pixels = fallbackPalette) := by
  constructor
  · intro h
    have hmap : buildColorMapV0 pixels = [] := foldl_colorMapStepV0_skip pixels h []
    simp [extractColorsFromImageV0, hmap, sortedColors, saturatedColors]
  · intro h
    have hmap : buildColorMap pixels = [] := foldl_colorMapStep_skip pixels h []
    simp [extractColorsFromImage, hmap, sortedColors, saturatedColors]

/-- Witness for C3: a single near-white opaque pixel yields the fallback in
the earlier revision, and a single transparent pixel yields the fallback in
the current revision. -/
theorem claim_C3_witness :
    extractColorsFromImageV0 [⟨255, 255, 255, 255⟩] = fallbackPalette ∧
    extractColorsFromImage [⟨10, 10, 10, 50⟩] = fallbackPalette :=
  ⟨(claim_C3 [⟨255, 255, 255, 255⟩]).1 (by decide),
   (claim_C3 [⟨10, 10, 10, 50⟩]).2 (by decide)⟩

/-! ## Claim C1 -/

/-- A pixel whose channels are 8-bit values (as delivered by `getImageData`). -/
def PixelInRange (p : Pixel) : Prop := p.r ≤ 255 ∧ p.g ≤ 255 ∧ p.b ≤ 255

/-- A bucket whose running-average channels lie in the 8-bit range. -/
def BucketInRange (c : ColorBucket) : Prop :=
  0 ≤ c.r ∧ c.r ≤ 255 ∧ 0 ≤ c.g ∧ c.g ≤ 255 ∧ 0 ≤ c.b ∧ c.b ≤ 255

theorem newBucket_inRange (p : Pixel) (hp : PixelInRange p) :
    BucketInRange (newBucket p) := by
  obtain ⟨h1, h2, h3⟩ := hp
  have q1 : (p.r : ℚ) ≤ 255 := by exact_mod_cast h1
  have q2 : (p.g : ℚ) ≤ 255 := by exact_mod_cast h2
  have q3 : (p.b : ℚ) ≤ 255 := by exact_mod_cast h3
  exact ⟨Nat.cast_nonneg _, q1, Nat.cast_nonneg _, q2, Nat.cast_nonneg _, q3⟩

theorem foldBucket_inRange (c : ColorBucket) (p : Pixel)
    (hc : BucketInRange c) (hp : PixelInRange p) :
    BucketInRange (foldBucket c p) := by
  obtain ⟨c1, c2, c3, c4, c5, c6⟩ := hc
  obtain ⟨p1, p2, p3⟩ := hp
  have q1 : (p.r : ℚ) ≤ 255 := by exact_mod_cast p1
  have q2 : (p.g : ℚ) ≤ 255 := by exact_mod_cast p2
  have q3 : (p.b : ℚ) ≤ 255 := by exact_mod_cast p3
  have n1 : (0 : ℚ) ≤ p.r := by positivity
  have n2 : (0 : ℚ) ≤ p.g := by positivity
  have n3 : (0 : ℚ) ≤ p.b := by positivity
  refine ⟨?_, ?_, ?_, ?_, ?_, ?_⟩ <;> simp only [foldBucket] <;> linarith

theorem updateMap_inRange (k : ColorKey) (p : Pixel) (hp : PixelInRange p) :
    ∀ m, (∀ e ∈ m, BucketInRange e.2) →
      ∀ e ∈ updateMap m k p, BucketInRange e.2 := by
  intro m
  induction m with
  | nil =>
    intro _ e he
    simp only [updateMap, List.mem_singleton] at he
    subst he
    exact newBucket_inRange p hp
  | cons hd tl ih =>
    intro hm e he
    obtain ⟨k', c⟩ := hd
    simp only [updateMap] at he
    by_cases hk : k' = k
    · rw [if_pos hk] at he
      rcases List.mem_cons.mp he with rfl | htl
      · exact foldBucket_inRange c p (hm (k', c) (List.mem_cons_self _ _)) hp
      · exact hm _ (List.mem_cons_of_mem _ htl)
    · rw [if_neg hk] at he
      rcases List.mem_cons.mp he with rfl | htl
      · exact hm _ (List.mem_cons_self _ _)
      · exact ih (fun e' he' => hm e' (List.mem_cons_of_mem _ he')) e htl

theorem foldl_colorMapStep_inRange :
    ∀ (pixels : List Pixel) (m : List (ColorKey × ColorBucket)),
      (∀ p ∈ pixels, PixelInRange p) → (∀ e ∈ m, BucketInRange e.2) →
      ∀ e ∈ pixels.foldl colorMapStep m, BucketInRange e.2 := by
  intro pixels
  induction pixels with
  | nil => intro m _ hm; simpa using hm
  | cons p rest ih =>
    intro m hpix hm
    have hrest : ∀ q ∈ rest, PixelInRange q :=
      fun q hq => hpix q (List.mem_cons_of_mem p hq)
    simp only [List.foldl_cons, colorMapStep]
    by_cases ha : p.a < 128
    · rw [if_pos ha]
      exact ih m hrest hm
    · rw [if_neg ha]
      exact ih _ hrest
        (updateMap_inRange _ p (hpix p (List.mem_cons_self _ _)) m hm)

/-- Every bucket accumulated from 8-bit pixels stays in the 8-bit range. -/
theorem buildColorMap_inRange (pixels : List Pixel)
    (hpix : ∀ p ∈ pixels, PixelInRange p) :
    ∀ e ∈ buildColorMap pixels, BucketInRange e.2 :=
  foldl_colorMapStep_inRange pixels [] hpix (by simp)

theorem mem_of_mem_sortedColors {m : List (ColorKey × ColorBucket)}
    {c : ColorBucket} (h : c ∈ sortedColors m) : c ∈ m.map Prod.snd :=
  (List.mem_insertionSort _).1 (List.take_subset 10 _ h)

theorem mem_of_mem_saturatedColors {sorted : List ColorBucket} {c : ColorBucket}
    (h : c ∈ saturatedColors sorted) : c ∈ sorted :=
  (List.mem_filter.mp (List.take_subset 3 _ h)).1

/-- Every bucket surviving the ranking and saturation filters is in range. -/
theorem saturated_inRange (pixels : List Pixel)
    (hpix : ∀ p ∈ pixels, PixelInRange p) (c : ColorBucket)
    (hc : c ∈ saturatedColors (sortedColors (buildColorMap pixels))) :
    BucketInRange c := by
  have h1 := mem_of_mem_sortedColors (mem_of_mem_saturatedColors hc)
  obtain ⟨e, he, rfl⟩ := List.mem_map.mp h1
  exact buildColorMap_inRange pixels hpix e he

theorem jsRound_le_255 {q : ℚ} (h : q ≤ 255) : jsRound q ≤ 255 := by
  rw [jsRound_eq_floor]
  have h1 : (q + 1 / 2 : ℚ) < ((256 : ℤ) : ℚ) := by push_cast; linarith
  have h2 : ⌊(q + 1 / 2 : ℚ)⌋ < 256 := Int.floor_lt.mpr h1
  omega

theorem toHexChannel_wf {q : ℚ} (h : jsRound q ≤ 255) :
    (toHexChannel q).length = 2 ∧ (toHexChannel q).all isHexDigitChar = true := by
  have hn : (jsRound q).toNat < 256 := by omega
  obtain ⟨h1, h2⟩ := hexChars_bounded _ hn
  constructor
  · simp only [toHexChannel, List.length_append, List.length_replicate]
    omega
  · simp only [toHexChannel, List.all_append, Bool.and_eq_true]
    refine ⟨?_, h2⟩
    simp only [List.all_eq_true]
    intro c hcmem
    have hc0 := List.eq_of_mem_replicate hcmem
    subst hc0
    decide

/-- The hex rendering of three channels that each round to at most 255 is a
well-formed 7-character color string. -/
theorem toHex_wf {r g b : ℚ} (hr : jsRound r ≤ 255) (hg : jsRound g ≤ 255)
    (hb : jsRound b ≤ 255) : isWellFormedColor (toHex r g b) = true := by
  obtain ⟨lr, ar⟩ := toHexChannel_wf hr
  obtain ⟨lg, ag⟩ := toHexChannel_wf hg
  obtain ⟨lb, ab⟩ := toHexChannel_wf hb
  simp [isWellFormedColor, toHex, List.all_append, lr, lg, lb, ar, ag, ab]

/-- Counterexample to C1 as stated: a single opaque pure-red pixel yields one
saturated bucket, so the accent is synthesized by the unclamped 1.2
multiplier: `round(255 * 1.2) = 306 = 0x132` prints as three hex digits and
the accent string `"#1320000"` has 8 characters, not 7. -/
theorem claim_C1_counterexample :
    extractColorsFromImage [⟨255, 0, 0, 255⟩] =
      ⟨"#ff0000", "#cc0000", "#1320000"⟩ ∧
    (saturatedColors (sortedColors (buildColorMap [⟨255, 0, 0, 255⟩]))).length = 1 ∧
    isWellFormedColor "#1320000" = false ∧
    "#1320000".length ≠ 7 ∧
    isWellFormedColor (extractColorsFromImage [⟨255, 0, 0, 255⟩]).primary = true ∧
    isWellFormedColor (extractColorsFromImage [⟨255, 0, 0, 255⟩]).secondary = true := by
  refine ⟨?_, ?_, ?_, ?_, ?_, ?_⟩ <;> with_unfolding_all decide

/-- Claim C1, amended: for 8-bit input pixels with at least one saturated
bucket, primary and secondary are always well-formed 7-character color
strings; accent is well-formed whenever a third saturated bucket exists or
each 1.2-brightened channel of the first saturated bucket rounds to at most
255.  (In the synthetic brightening path a primary channel above about 212.9
makes the unclamped accent channel print with three hex digits, so the accent
string then has 8 characters — see the counterexample.) -/
theorem claim_C1 (pixels : List Pixel)
    (hpix : ∀ p ∈ pixels, p.r ≤ 255 ∧ p.g ≤ 255 ∧ p.b ≤ 255)
    (c0 : ColorBucket)
    (h0 : (saturatedColors (sortedColors (buildColorMap pixels))).get? 0 = some c0) :
    isWellFormedColor (extractColorsFromImage pixels).primary = true ∧
    isWellFormedColor (extractColorsFromImage pixels).secondary = true ∧
    (((saturatedColors (sortedColors (buildColorMap pixels))).get? 2 ≠ none ∨
        (jsRound (c0.r * (6 / 5)) ≤ 255 ∧ jsRound (c0.g * (6 / 5)) ≤ 255 ∧
          jsRound (c0.b * (6 / 5)) ≤ 255)) →
      isWellFormedColor (extractColorsFromImage pixels).accent = true) := by
  have hpir : ∀ p ∈ pixels, PixelInRange p := hpix
  obtain ⟨c0r0, c0r, c0g0, c0g, c0b0, c0b⟩ :=
    saturated_inRange pixels hpir c0 (List.get?_mem h0)
  have wf_bucket : ∀ c : ColorBucket,
      c ∈ saturatedColors (sortedColors (buildColorMap pixels)) →
      isWellFormedColor (toHex c.r c.g c.b) = true := by
    intro c hc
    obtain ⟨x1, x2, x3, x4, x5, x6⟩ := saturated_inRange pixels hpir c hc
    exact toHex_wf (jsRound_le_255 x2) (jsRound_le_255 x4) (jsRound_le_255 x6)
  refine ⟨?_, ?_, ?_⟩
  · have he : (extractColorsFromImage pixels).primary = toHex c0.r c0.g c0.b := by
      simp only [extractColorsFromImage, h0]
    rw [he]
    exact wf_bucket c0 (List.get?_mem h0)
  · rcases hs1 : (saturatedColors (sortedColors (buildColorMap pixels))).get? 1 with _ | c1
    · have he : (extractColorsFromImage pixels).secondary =
          toHex (c0.r * (4 / 5)) (c0.g * (4 / 5)) (c0.b * (4 / 5)) := by
        simp only [extractColorsFromImage, h0, hs1]
      rw [he]
      exact toHex_wf (jsRound_le_255 (by linarith)) (jsRound_le_255 (by linarith))
        (jsRound_le_255 (by linarith))
    · have he : (extractColorsFromImage pixels).secondary = toHex c1.r c1.g c1.b := by
        simp only [extractColorsFromImage, h0, hs1]
      rw [he]
      exact wf_bucket c1 (List.get?_mem hs1)
  · intro hacc
    rcases hs2 : (saturatedColors (sortedColors (buildColorMap pixels))).get? 2 with _ | c2
    · rcases hacc with hne | ⟨br, bg, bb⟩
      · exact absurd hs2 hne
      · have he : (extractColorsFromImage pixels).accent =
            toHex (c0.r * (6 / 5)) (c0.g * (6 / 5)) (c0.b * (6 / 5)) := by
          simp only [extractColorsFromImage, h0, hs2]
        rw [he]
        exact toHex_wf br bg bb
    · have he : (extractColorsFromImage pixels).accent = toHex c2.r c2.g c2.b := by
        simp only [extractColorsFromImage, h0, hs2]
      rw [he]
      exact wf_bucket c2 (List.get?_mem hs2)

/-- Witness for C1 at a single saturated dark-red pixel, for which even the
brightened synthetic accent stays in range: all three palette entries are
well-formed 7-character color strings. -/
theorem claim_C1_witness :
    isWellFormedColor (extractColorsFromImage [⟨100, 30, 30, 255⟩]).primary = true ∧
    isWellFormedColor (extractColorsFromImage [⟨100, 30, 30, 255⟩]).secondary = true ∧
    isWellFormedColor (extractColorsFromImage [⟨100, 30, 30, 255⟩]).accent = true :=
  have h := claim_C1 [⟨100, 30, 30, 255⟩] (by decide) ⟨100, 30, 30, 1⟩
    (by with_unfolding_all decide)
  ⟨h.1, h.2.1, h.2.2 (Or.inr (by with_unfolding_all decide))⟩

end QRC
